import Mathlib

set_option maxRecDepth 4000

/-!
Shallow embedding of the replaylist backend (src/backend/src/main.rs).

The provider HTTP layer is abstracted as inputs/oracles: each call site's
outcome (network success with a parsed JSON body, or a transport/parse
error) is a parameter of the embedded function.  The embedded functions
reproduce the source's control flow and field extraction exactly; transfer
functions additionally return the ordered trace of search/append provider
calls they issue, which the source performs as side effects.
-/

/-- Model of serde_json::Value.  Numbers are modelled as integers, which
covers every field the program reads with as_u64. -/
inductive Json where
  | null
  | str (s : String)
  | num (n : Int)
  | jbool (b : Bool)
  | arr (elems : List Json)
  | obj (fields : List (String × Json))

/-- First-match lookup in a JSON object's field list. -/
def lookupField : List (String × Json) → String → Json
  | [], _ => Json.null
  | (k, v) :: rest, key => if k = key then v else lookupField rest key

/-- serde_json indexing v[key]: Null when the key is absent or the value
is not an object. -/
def Json.get : Json → String → Json
  | Json.obj fields, key => lookupField fields key
  | _, _ => Json.null

/-- serde_json indexing v[i]: Null when out of bounds or not an array. -/
def Json.idx : Json → Nat → Json
  | Json.arr elems, i => elems.getD i Json.null
  | _, _ => Json.null

/-- serde_json Value::as_str. -/
def Json.asStr : Json → Option String
  | Json.str s => some s
  | _ => none

/-- serde_json Value::as_array. -/
def Json.asArr : Json → Option (List Json)
  | Json.arr elems => some elems
  | _ => none

/-- serde_json Value::as_u64: an integer number that is nonnegative. -/
def Json.asU64 : Json → Option Nat
  | Json.num n => if 0 ≤ n then some n.toNat else none
  | _ => none

/-- Fuel-driven core of Rust str::replace: replace non-overlapping
occurrences of pat left to right.  Fuel is an upper bound on the input
length; one unit is spent per step and each step consumes at least one
input character, so fuel = length is exact. -/
def replaceAux (pat rep : List Char) : Nat → List Char → List Char
  | 0, s => s
  | fuel + 1, s =>
    match s with
    | [] => []
    | c :: cs =>
      if !pat.isEmpty && pat.isPrefixOf (c :: cs) then
        rep ++ replaceAux pat rep fuel (List.drop pat.length (c :: cs))
      else
        c :: replaceAux pat rep fuel cs

/-- Rust str::replace (for the non-empty patterns the program uses). -/
def rustReplace (s pat rep : String) : String :=
  String.mk (replaceAux pat.data rep.data s.data.length s.data)

/-- Fuel-driven repeated removal of a leading pattern from a list. -/
def stripRepAux (pat : List Char) : Nat → List Char → List Char
  | 0, s => s
  | fuel + 1, s =>
    if !pat.isEmpty && pat.isPrefixOf s then
      stripRepAux pat fuel (List.drop pat.length s)
    else s

/-- Rust str::trim_end_matches: all trailing occurrences of pat removed,
realised as repeated removal of the reversed pattern at the front of the
reversed string. -/
def rustTrimEndMatches (s pat : String) : String :=
  String.mk (List.reverse (stripRepAux pat.data.reverse s.data.length s.data.reverse))

/-- Rust str::ends_with. -/
def rustEndsWith (s pat : String) : Bool :=
  pat.data.reverse.isPrefixOf s.data.reverse

/-- The canonical Track model (struct Track, main.rs lines 368-373). -/
structure Track where
  title : String
  artist : String
  isrc : Option String
deriving DecidableEq

/-- The canonical playlist model (struct PlaylistItem, main.rs lines 375-382). -/
structure PlaylistItem where
  id : String
  name : String
  cover : String
  track_count : Nat
  tracks : List Track
deriving DecidableEq

/-- Outcome of a Rust function body: Ok value, propagated error
(anyhow / actix error paths), or a process panic (unwrap on None). -/
inductive RResult (α : Type) where
  | ok (a : α)
  | err (e : String)
  | panicked (msg : String)

/-- Whether an outcome is a panic. -/
def RResult.isPanicked {α : Type} : RResult α → Bool
  | RResult.panicked _ => true
  | _ => false

/-- Whether an outcome is Ok. -/
def RResult.isOk {α : Type} : RResult α → Bool
  | RResult.ok _ => true
  | _ => false

/-- A provider call issued inside a transfer's per-track loop. -/
inductive ProviderCall where
  | searchIsrc (isrc : String)
  | searchText (query : String)
  | append (id : String)
deriving DecidableEq

/-- Whether a call is an ISRC-mode catalog search. -/
def ProviderCall.isIsrcSearch : ProviderCall → Bool
  | ProviderCall.searchIsrc _ => true
  | _ => false

/-- Whether a call is a text-mode catalog search. -/
def ProviderCall.isTextSearch : ProviderCall → Bool
  | ProviderCall.searchText _ => true
  | _ => false

/-- Whether a call is a search of either mode. -/
def ProviderCall.isSearch : ProviderCall → Bool
  | ProviderCall.append _ => false
  | _ => true

/-- Whether a call is a track append. -/
def ProviderCall.isAppend : ProviderCall → Bool
  | ProviderCall.append _ => true
  | _ => false

/-- Environment of create_playlist_to_youtube: session token, and the
outcome of each provider call the function can make (the search and
append outcomes are indexed by track position). -/
structure YtEnv where
  accessToken : Option String
  createRes : Except String Json
  searchRes : Nat → Except String Json
  appendRes : Nat → Except String Unit

/-- Video-id extraction from a YouTube search response
(main.rs lines 140-144). -/
def ytVideoIdOf (v : Json) : Option String :=
  (((v.get "items").asArr).bind List.head?).bind
    (fun item => ((item.get "id").get "videoId").asStr)

/-- Per-track loop of create_playlist_to_youtube (main.rs lines 124-160):
text-mode search only; a missing match skips the track; a transport
error on search or append aborts the whole function via the ? operator. -/
def ytLoop (env : YtEnv) : List Track → Nat → RResult Unit × List ProviderCall
  | [], _ => (RResult.ok (), [])
  | t :: rest, i =>
    let q := t.title ++ " " ++ t.artist
    match env.searchRes i with
    | Except.error e => (RResult.err e, [ProviderCall.searchText q])
    | Except.ok sj =>
      match ytVideoIdOf sj with
      | none =>
        let r := ytLoop env rest (i + 1)
        (r.1, ProviderCall.searchText q :: r.2)
      | some vid =>
        match env.appendRes i with
        | Except.error e => (RResult.err e, [ProviderCall.searchText q, ProviderCall.append vid])
        | Except.ok _ =>
          let r := ytLoop env rest (i + 1)
          (r.1, ProviderCall.searchText q :: ProviderCall.append vid :: r.2)

/-- create_playlist_to_youtube (main.rs lines 98-162). -/
def create_playlist_to_youtube (env : YtEnv) (playlist : PlaylistItem) :
    RResult Unit × List ProviderCall :=
  match env.accessToken with
  | none => (RResult.err "no youtube_access_token", [])
  | some _ =>
    match env.createRes with
    | Except.error e => (RResult.err e, [])
    | Except.ok createRes =>
      match (createRes.get "id").asStr with
      | none => (RResult.err "failed to get playlist id", [])
      | some _ => ytLoop env playlist.tracks 0

/-- Environment of create_playlist_to_apple. createResp is the playlist
creation outcome as (status.is_success(), body text); parseBody is
serde_json::from_str on that body. -/
structure AppleEnv where
  devToken : Except String String
  userToken : Option String
  clientBuild : Except String Unit
  createResp : Except String (Bool × String)
  parseBody : String → Except String Json
  searchRes : Nat → Except String Json
  appendRes : Nat → Except String Unit

/-- Catalog-id extraction from an Apple ISRC filter response
(main.rs lines 207-211). -/
def appleIsrcIdOf (v : Json) : Option String :=
  (((v.get "data").asArr).bind List.head?).bind
    (fun song => (song.get "id").asStr)

/-- Catalog-id extraction from an Apple text search response
(main.rs lines 223-227). -/
def appleTextIdOf (v : Json) : Option String :=
  (((((v.get "results").get "songs").get "data").asArr).bind List.head?).bind
    (fun s => (s.get "id").asStr)

/-- The per-track extraction create_playlist_to_apple applies to the search
response: the ISRC path when track.isrc is Some, else the text path
(main.rs lines 197-228). -/
def appleCatalogIdOf (t : Track) (v : Json) : Option String :=
  match t.isrc with
  | some _ => appleIsrcIdOf v
  | none => appleTextIdOf v

/-- Per-track loop of create_playlist_to_apple (main.rs lines 196-246):
exactly one search per track (ISRC mode iff isrc is Some, else text
mode), no fallback between modes; a missing catalog id skips the track
(continue); transport errors abort via the ? operator. -/
def appleCallTag (t : Track) : ProviderCall :=
  match t.isrc with
  | some isrc => ProviderCall.searchIsrc isrc
  | none => ProviderCall.searchText (t.title ++ " " ++ t.artist)

def appleLoop (env : AppleEnv) : List Track → Nat → RResult Unit × List ProviderCall
  | [], _ => (RResult.ok (), [])
  | t :: rest, i =>
    let callTag := appleCallTag t
    match env.searchRes i with
    | Except.error e => (RResult.err e, [callTag])
    | Except.ok sj =>
      match appleCatalogIdOf t sj with
      | none =>
        let r := appleLoop env rest (i + 1)
        (r.1, callTag :: r.2)
      | some cid =>
        match env.appendRes i with
        | Except.error e => (RResult.err e, [callTag, ProviderCall.append cid])
        | Except.ok _ =>
          let r := appleLoop env rest (i + 1)
          (r.1, callTag :: ProviderCall.append cid :: r.2)

/-- create_playlist_to_apple (main.rs lines 164-248). -/
def create_playlist_to_apple (env : AppleEnv) (playlist : PlaylistItem) :
    RResult Unit × List ProviderCall :=
  match env.devToken with
  | Except.error e => (RResult.err e, [])
  | Except.ok _ =>
    match env.userToken with
    | none => (RResult.err "no apple_user_token in session", [])
    | some _ =>
      match env.clientBuild with
      | Except.error e => (RResult.err e, [])
      | Except.ok _ =>
        match env.createResp with
        | Except.error e => (RResult.err e, [])
        | Except.ok statusBody =>
          if !statusBody.1 then
            (RResult.err ("create playlist failed: " ++ statusBody.2), [])
          else
            match env.parseBody statusBody.2 with
            | Except.error e => (RResult.err e, [])
            | Except.ok v =>
              match (((v.get "data").idx 0).get "id").asStr with
              | none => (RResult.err "failed to extract playlist id", [])
              | some _ => appleLoop env playlist.tracks 0

/-- The panic message of Option::unwrap on None. -/
def unwrapNoneMsg : String := "called Option::unwrap on a None value"

/-- Environment of create_playlist_to_spotify. -/
structure SpotifyEnv where
  refreshToken : Option String
  clientId : Except String String
  clientSecret : Except String String
  tokenRes : Except String Json
  meRes : Except String Json
  createRes : Except String Json
  searchRes : Nat → Except String Json
  appendRes : Nat → Except String Unit

/-- Track-uri extraction from a Spotify search response
(main.rs lines 324-328 and 346-350, identical in both branches). -/
def spotifyUriOf (v : Json) : Option String :=
  ((((v.get "tracks").get "items").asArr).bind List.head?).bind
    (fun item => (item.get "uri").asStr)

/-- Per-track loop of create_playlist_to_spotify (main.rs lines 310-364):
one search per track, ISRC-mode query when isrc is Some (the query string
is isrc:VALUE), else structured text query; no fallback between modes. -/
def spotifyCallTag (t : Track) : ProviderCall :=
  match t.isrc with
  | some isrc => ProviderCall.searchIsrc isrc
  | none =>
    ProviderCall.searchText
      ("track:\"" ++ t.title ++ "\" artist:\"" ++ t.artist ++ "\"")

def spotifyLoop (env : SpotifyEnv) : List Track → Nat → RResult Unit × List ProviderCall
  | [], _ => (RResult.ok (), [])
  | t :: rest, i =>
    let callTag := spotifyCallTag t
    match env.searchRes i with
    | Except.error e => (RResult.err e, [callTag])
    | Except.ok sj =>
      match spotifyUriOf sj with
      | none =>
        let r := spotifyLoop env rest (i + 1)
        (r.1, callTag :: r.2)
      | some uri =>
        match env.appendRes i with
        | Except.error e => (RResult.err e, [callTag, ProviderCall.append uri])
        | Except.ok _ =>
          let r := spotifyLoop env rest (i + 1)
          (r.1, callTag :: ProviderCall.append uri :: r.2)

/-- create_playlist_to_spotify (main.rs lines 256-366).  The two
as_str().unwrap() calls on lines 291 and 308 are modelled as panics when
the field is not a string. -/
def create_playlist_to_spotify (env : SpotifyEnv) (playlist : PlaylistItem) :
    RResult Unit × List ProviderCall :=
  match env.refreshToken with
  | none => (RResult.err "no spotify_refresh_token", [])
  | some _ =>
    match env.clientId with
    | Except.error e => (RResult.err e, [])
    | Except.ok _ =>
      match env.clientSecret with
      | Except.error e => (RResult.err e, [])
      | Except.ok _ =>
        match env.tokenRes with
        | Except.error e => (RResult.err e, [])
        | Except.ok tokenJson =>
          match (tokenJson.get "access_token").asStr with
          | none => (RResult.err "no access token", [])
          | some _ =>
            match env.meRes with
            | Except.error e => (RResult.err e, [])
            | Except.ok me =>
              match (me.get "id").asStr with
              | none => (RResult.panicked unwrapNoneMsg, [])
              | some _ =>
                match env.createRes with
                | Except.error e => (RResult.err e, [])
                | Except.ok createJson =>
                  match (createJson.get "id").asStr with
                  | none => (RResult.panicked unwrapNoneMsg, [])
                  | some _ => spotifyLoop env playlist.tracks 0

/-- Environment of fetch_apple_playlists: an oracle from request URL to
the outcome of send + json decoding. -/
structure AppleFetchEnv where
  http : String → Except String Json

/-- Cover-art URL extraction and normalization for an Apple playlist entry
(main.rs lines 451-457). -/
def appleCoverOf (p : Json) : String :=
  let cover := ((((p.get "attributes").get "artwork").get "url").asStr).getD ""
  if cover.isEmpty then cover
  else rustReplace (rustReplace cover "{w}x{h}" "300x300") "{f}" "jpg"

/-- Canonical track built from an Apple library-tracks entry
(main.rs lines 481-489). -/
def appleTrackOf (track : Json) : Track :=
  { title := (((track.get "attributes").get "name").asStr).getD ""
    artist := (((track.get "attributes").get "artistName").asStr).getD ""
    isrc := ((track.get "attributes").get "isrc").asStr }

/-- Tracks request URL for an Apple playlist (main.rs lines 459-467). -/
def appleTracksUrl (id href : String) : String :=
  if href.isEmpty then
    "https://api.music.apple.com/v1/me/library/playlists/" ++ id ++ "/tracks"
  else "https://api.music.apple.com" ++ href

/-- One iteration of the fetch_apple_playlists playlist loop
(main.rs lines 447-504): one tracks request, defensive field extraction,
track_count from relationships.tracks.meta.total when present, else the
number of fetched tracks. -/
def appleEntry (env : AppleFetchEnv) (p : Json) : RResult PlaylistItem :=
  let id := ((p.get "id").asStr).getD ""
  let name := (((p.get "attributes").get "name").asStr).getD ""
  let cover := appleCoverOf p
  let href := ((((p.get "relationships").get "tracks").get "href").asStr).getD ""
  match env.http (appleTracksUrl id href) with
  | Except.error e => RResult.err e
  | Except.ok tracksResp =>
    let tracks :=
      match (tracksResp.get "data").asArr with
      | some items => items.map appleTrackOf
      | none => []
    let trackCount :=
      (((((p.get "relationships").get "tracks").get "meta").get "total").asU64).getD
        tracks.length
    RResult.ok
      { id := id, name := name, cover := cover, track_count := trackCount, tracks := tracks }

/-- The playlist loop of fetch_apple_playlists; a failed tracks request
aborts the whole fetch via the ? operator. -/
def appleFetchLoop (env : AppleFetchEnv) : List Json → RResult (List PlaylistItem)
  | [] => RResult.ok []
  | p :: rest =>
    match appleEntry env p with
    | RResult.err e => RResult.err e
    | RResult.panicked m => RResult.panicked m
    | RResult.ok item =>
      match appleFetchLoop env rest with
      | RResult.err e => RResult.err e
      | RResult.panicked m => RResult.panicked m
      | RResult.ok items => RResult.ok (item :: items)

/-- fetch_apple_playlists (main.rs lines 429-509): a single listing
request (no pagination), then one tracks request per playlist. -/
def fetch_apple_playlists (env : AppleFetchEnv) : RResult (List PlaylistItem) :=
  match env.http "https://api.music.apple.com/v1/me/library/playlists" with
  | Except.error e => RResult.err e
  | Except.ok resp =>
    match (resp.get "data").asArr with
    | none => RResult.ok []
    | some items => appleFetchLoop env items

/-- Environment of fetch_spotify_playlists. -/
structure SpotifyFetchEnv where
  http : String → Except String Json

/-- The Spotify playlist-listing URL (main.rs line 515). -/
def spotifyListUrl : String := "https://api.spotify.com/v1/me/playlists?limit=50"

/-- Tracks request URL for a Spotify playlist (main.rs lines 532-535). -/
def spotifyTracksUrl (id : String) : String :=
  "https://api.spotify.com/v1/playlists/" ++ id ++ "/tracks"

/-- Canonical track built from a Spotify playlist-tracks item
(main.rs lines 545-555). -/
def spotifyTrackOf (item : Json) : Track :=
  { title := (((item.get "track").get "name").asStr).getD ""
    artist := (((((item.get "track").get "artists").idx 0).get "name").asStr).getD ""
    isrc := (((item.get "track").get "external_ids").get "isrc").asStr }

/-- One iteration of the fetch_spotify_playlists playlist loop
(main.rs lines 525-565): track_count comes from tracks.total metadata,
defaulting to 0 when absent. -/
def spotifyEntry (env : SpotifyFetchEnv) (pl : Json) : RResult PlaylistItem :=
  let id := ((pl.get "id").asStr).getD ""
  let name := ((pl.get "name").asStr).getD ""
  let cover := ((((pl.get "images").idx 0).get "url").asStr).getD ""
  let trackCount := (((pl.get "tracks").get "total").asU64).getD 0
  match env.http (spotifyTracksUrl id) with
  | Except.error e => RResult.err e
  | Except.ok tracksResp =>
    let tracks :=
      match (tracksResp.get "items").asArr with
      | some items => items.map spotifyTrackOf
      | none => []
    RResult.ok
      { id := id, name := name, cover := cover, track_count := trackCount, tracks := tracks }

/-- The playlist loop of fetch_spotify_playlists. -/
def spotifyFetchLoop (env : SpotifyFetchEnv) : List Json → RResult (List PlaylistItem)
  | [] => RResult.ok []
  | pl :: rest =>
    match spotifyEntry env pl with
    | RResult.err e => RResult.err e
    | RResult.panicked m => RResult.panicked m
    | RResult.ok item =>
      match spotifyFetchLoop env rest with
      | RResult.err e => RResult.err e
      | RResult.panicked m => RResult.panicked m
      | RResult.ok items => RResult.ok (item :: items)

/-- The jsons the spotify playlist loop iterates over for a given listing
outcome (main.rs line 524). -/
def spotifyListingItems (r : Except String Json) : List Json :=
  match r with
  | Except.ok j => ((j.get "items").asArr).getD []
  | Except.error _ => []

/-- fetch_spotify_playlists (main.rs lines 511-570): a single listing
request with limit=50 (the next URL is never followed), then one tracks
request per playlist (again no pagination). -/
def fetch_spotify_playlists (env : SpotifyFetchEnv) : RResult (List PlaylistItem) :=
  match env.http spotifyListUrl with
  | Except.error e => RResult.err e
  | Except.ok resp =>
    match (resp.get "items").asArr with
    | none => RResult.ok []
    | some items => spotifyFetchLoop env items

/-- Environment of fetch_youtube_playlists: the listing outcome, and the
playlistItems outcome per playlist id (the request is the fixed
playlistItems URL with the playlistId query parameter). -/
structure YtFetchEnv where
  playlistsRes : Except String Json
  tracksFor : String → Except String Json

/-- Artist-name post-processing for a YouTube video owner channel title
(main.rs lines 617-620): strip the Topic suffix with trim_end_matches
when the title ends with it. -/
def ytArtistOf (raw : String) : String :=
  if rustEndsWith raw " - Topic" then rustTrimEndMatches raw " - Topic" else raw

/-- Canonical track built from a YouTube playlistItems entry
(main.rs lines 610-626): isrc is always None. -/
def ytTrackOf (item : Json) : Track :=
  { title := (((item.get "snippet").get "title").asStr).getD ""
    artist := ytArtistOf ((((item.get "snippet").get "videoOwnerChannelTitle").asStr).getD "")
    isrc := none }

/-- One iteration of the fetch_youtube_playlists playlist loop
(main.rs lines 587-636): track_count is always the number of fetched
tracks. -/
def ytEntry (env : YtFetchEnv) (pl : Json) : RResult PlaylistItem :=
  let id := ((pl.get "id").asStr).getD ""
  let name := (((pl.get "snippet").get "title").asStr).getD ""
  let cover := (((((pl.get "snippet").get "thumbnails").get "medium").get "url").asStr).getD ""
  match env.tracksFor id with
  | Except.error e => RResult.err e
  | Except.ok tracksResp =>
    let tracks :=
      match (tracksResp.get "items").asArr with
      | some items => items.map ytTrackOf
      | none => []
    RResult.ok
      { id := id, name := name, cover := cover, track_count := tracks.length, tracks := tracks }

/-- The playlist loop of fetch_youtube_playlists. -/
def ytFetchLoop (env : YtFetchEnv) : List Json → RResult (List PlaylistItem)
  | [] => RResult.ok []
  | pl :: rest =>
    match ytEntry env pl with
    | RResult.err e => RResult.err e
    | RResult.panicked m => RResult.panicked m
    | RResult.ok item =>
      match ytFetchLoop env rest with
      | RResult.err e => RResult.err e
      | RResult.panicked m => RResult.panicked m
      | RResult.ok items => RResult.ok (item :: items)

/-- fetch_youtube_playlists (main.rs lines 572-640): a single listing
request with maxResults=50 (nextPageToken never read), then one
playlistItems request per playlist. -/
def fetch_youtube_playlists (env : YtFetchEnv) : RResult (List PlaylistItem) :=
  match env.playlistsRes with
  | Except.error e => RResult.err e
  | Except.ok resp =>
    match (resp.get "items").asArr with
    | none => RResult.ok []
    | some items => ytFetchLoop env items

/-! Concrete inputs used by counterexamples and witnesses. -/

/-- A playlist with two plain tracks. -/
def c1pl : PlaylistItem :=
  { id := "src", name := "P", cover := "", track_count := 2,
    tracks := [{ title := "T0", artist := "A0", isrc := none },
               { title := "T1", artist := "A1", isrc := none }] }

/-- A YouTube search response containing one video match. -/
def c1okSearch : Json :=
  Json.obj [("items", Json.arr [Json.obj [("id", Json.obj [("videoId", Json.str "v2")])]])]

/-- Transfer environment in which the first per-track search fails with a
transport error and every later one succeeds. -/
def c1env : YtEnv :=
  { accessToken := some "tok"
    createRes := Except.ok (Json.obj [("id", Json.str "PL1")])
    searchRes := fun i => if i = 0 then Except.error "connection reset" else Except.ok c1okSearch
    appendRes := fun _ => Except.ok () }

/-- Error-free YouTube search responses: a match for track 0, none for
later tracks. -/
def c1wSearchY : Nat → Json := fun i =>
  if i = 0 then c1okSearch else Json.obj [("items", Json.arr [])]

/-- Error-free YouTube transfer environment. -/
def c1wEnvY : YtEnv :=
  { accessToken := some "tok"
    createRes := Except.ok (Json.obj [("id", Json.str "PL1")])
    searchRes := fun i => Except.ok (c1wSearchY i)
    appendRes := fun _ => Except.ok () }

/-- Error-free Apple search responses: a match for track 0, none for
later tracks. -/
def c1wSearchA : Nat → Json := fun i =>
  if i = 0 then Json.obj [("data", Json.arr [Json.obj [("id", Json.str "song1")]])]
  else Json.obj [("data", Json.arr [])]

/-- Error-free Apple transfer environment. -/
def c1wEnvA : AppleEnv :=
  { devToken := Except.ok "dev"
    userToken := some "u"
    clientBuild := Except.ok ()
    createResp := Except.ok (true, "create-body")
    parseBody := fun _ =>
      Except.ok (Json.obj [("data", Json.arr [Json.obj [("id", Json.str "newpl")]])])
    searchRes := fun i => Except.ok (c1wSearchA i)
    appendRes := fun _ => Except.ok () }

/-- A playlist whose two tracks both carry an ISRC. -/
def c1wPl : PlaylistItem :=
  { id := "src", name := "P", cover := "", track_count := 2,
    tracks := [{ title := "T0", artist := "A0", isrc := some "ISRC0" },
               { title := "T1", artist := "A1", isrc := some "ISRC1" }] }

/-- YouTube transfer environment whose single search succeeds with a
match. -/
def c2env : YtEnv :=
  { accessToken := some "tok"
    createRes := Except.ok (Json.obj [("id", Json.str "PL1")])
    searchRes := fun _ => Except.ok c1okSearch
    appendRes := fun _ => Except.ok () }

/-- A playlist with a single track that carries an ISRC. -/
def c2pl : PlaylistItem :=
  { id := "src", name := "P", cover := "", track_count := 1,
    tracks := [{ title := "T", artist := "A", isrc := some "JPA000000001" }] }

/-- Apple transfer environment used only through its per-track loop. -/
def c2wAppleEnv : AppleEnv :=
  { devToken := Except.ok "dev", userToken := some "u", clientBuild := Except.ok ()
    createResp := Except.ok (true, "b"), parseBody := fun _ => Except.ok Json.null
    searchRes := fun _ => Except.ok Json.null, appendRes := fun _ => Except.ok () }

/-- Spotify transfer environment used only through its per-track loop. -/
def c2wSpotifyEnv : SpotifyEnv :=
  { refreshToken := some "r", clientId := Except.ok "cid", clientSecret := Except.ok "cs"
    tokenRes := Except.ok Json.null, meRes := Except.ok Json.null
    createRes := Except.ok Json.null
    searchRes := fun _ => Except.ok Json.null, appendRes := fun _ => Except.ok () }

/-- An ISRC-search response whose data array is empty (no match). -/
def c3emptyData : Json := Json.obj [("data", Json.arr [])]

/-- Apple transfer environment: creation succeeds, the only track search
answers with an empty data array. -/
def c3env : AppleEnv :=
  { devToken := Except.ok "dev"
    userToken := some "u"
    clientBuild := Except.ok ()
    createResp := Except.ok (true, "raw-create-body")
    parseBody := fun _ =>
      Except.ok (Json.obj [("data", Json.arr [Json.obj [("id", Json.str "pl9")]])])
    searchRes := fun _ => Except.ok c3emptyData
    appendRes := fun _ => Except.ok () }

/-- A playlist with a single ISRC-carrying track. -/
def c3pl : PlaylistItem :=
  { id := "src", name := "P", cover := "", track_count := 1,
    tracks := [{ title := "T", artist := "A", isrc := some "JPX000000002" }] }

/-- A Spotify search response whose items array is empty. -/
def c3wSpotifyMiss : Json :=
  Json.obj [("tracks", Json.obj [("items", Json.arr [])])]

/-- Spotify transfer environment whose searches answer with no items. -/
def c3wSpotifyEnv : SpotifyEnv :=
  { refreshToken := some "r", clientId := Except.ok "cid", clientSecret := Except.ok "cs"
    tokenRes := Except.ok Json.null, meRes := Except.ok Json.null
    createRes := Except.ok Json.null
    searchRes := fun _ => Except.ok c3wSpotifyMiss, appendRes := fun _ => Except.ok () }

/-- One track item of a Spotify playlist-tracks page. -/
def c4track (i : Nat) : Json :=
  Json.obj [("track", Json.obj
    [("name", Json.str ("T" ++ toString i)),
     ("artists", Json.arr [Json.obj [("name", Json.str "A")]]),
     ("external_ids", Json.obj [])])]

/-- A 20-item page of a Spotify playlist-tracks listing, carrying the
provider pagination signal in its next field. -/
def c4page (start : Nat) (next : Json) : Json :=
  Json.obj [("items", Json.arr ((List.range 20).map (fun k => c4track (start + k)))),
    ("next", next)]

/-- The single playlist entry of the Spotify listing: 60 tracks total per
provider metadata. -/
def c4plJson : Json :=
  Json.obj [("id", Json.str "p1"), ("name", Json.str "P"),
    ("tracks", Json.obj [("total", Json.num 60)])]

/-- The Spotify playlist listing response. -/
def c4listing : Json := Json.obj [("items", Json.arr [c4plJson])]

/-- A provider in which the playlist p1 track listing is spread across
three pages of 20 items, each page naming the next page URL. -/
def c4http : String → Except String Json := fun url =>
  if url = spotifyListUrl then Except.ok c4listing
  else if url = "https://api.spotify.com/v1/playlists/p1/tracks" then
    Except.ok (c4page 0 (Json.str "https://api.spotify.com/v1/playlists/p1/tracks?offset=20"))
  else if url = "https://api.spotify.com/v1/playlists/p1/tracks?offset=20" then
    Except.ok (c4page 20 (Json.str "https://api.spotify.com/v1/playlists/p1/tracks?offset=40"))
  else if url = "https://api.spotify.com/v1/playlists/p1/tracks?offset=40" then
    Except.ok (c4page 40 Json.null)
  else Except.error "not found"

/-- The same provider with all pages beyond the first removed. -/
def c4httpB : String → Except String Json := fun url =>
  if url = spotifyListUrl then Except.ok c4listing
  else if url = "https://api.spotify.com/v1/playlists/p1/tracks" then
    Except.ok (c4page 0 (Json.str "https://api.spotify.com/v1/playlists/p1/tracks?offset=20"))
  else Except.error "not found"

/-- The per-playlist track-list lengths of a fetch outcome. -/
def fetchedTrackLens : RResult (List PlaylistItem) → List Nat
  | RResult.ok ps => ps.map (fun p => p.tracks.length)
  | _ => []

/-- The number of items in the page a request returned. -/
def pageItemCount (r : Except String Json) : Nat :=
  match r with
  | Except.ok j => (((j.get "items").asArr).getD []).length
  | Except.error _ => 0

/-- Spotify transfer environment: authentication succeeds, the playlist
creation response carries no id field. -/
def c5env : SpotifyEnv :=
  { refreshToken := some "r", clientId := Except.ok "cid", clientSecret := Except.ok "cs"
    tokenRes := Except.ok (Json.obj [("access_token", Json.str "tokA")])
    meRes := Except.ok (Json.obj [("id", Json.str "user1")])
    createRes := Except.ok (Json.obj [("error", Json.str "forbidden")])
    searchRes := fun _ => Except.ok Json.null
    appendRes := fun _ => Except.ok () }

/-- A one-track playlist for the creation-failure runs. -/
def c5pl : PlaylistItem :=
  { id := "s", name := "P", cover := "", track_count := 1,
    tracks := [{ title := "T", artist := "A", isrc := none }] }

/-- Apple transfer environment whose creation request is rejected with a
non-success status. -/
def c5wEnvA : AppleEnv :=
  { devToken := Except.ok "dev", userToken := some "u", clientBuild := Except.ok ()
    createResp := Except.ok (false, "forbidden-raw-provider-body")
    parseBody := fun _ => Except.ok Json.null
    searchRes := fun _ => Except.ok Json.null, appendRes := fun _ => Except.ok () }

/-- YouTube transfer environment whose creation response carries no id. -/
def c5wEnvY : YtEnv :=
  { accessToken := some "tok"
    createRes := Except.ok (Json.obj [("error", Json.str "forbidden")])
    searchRes := fun _ => Except.ok Json.null, appendRes := fun _ => Except.ok () }

/-- Spotify transfer environment whose user-profile response carries no
id field. -/
def c6env : SpotifyEnv :=
  { refreshToken := some "r", clientId := Except.ok "cid", clientSecret := Except.ok "cs"
    tokenRes := Except.ok (Json.obj [("access_token", Json.str "tokA")])
    meRes := Except.ok (Json.obj [])
    createRes := Except.ok (Json.obj [("id", Json.str "x")])
    searchRes := fun _ => Except.ok Json.null
    appendRes := fun _ => Except.ok () }

/-- An empty playlist. -/
def c6pl : PlaylistItem :=
  { id := "s", name := "P", cover := "", track_count := 0, tracks := [] }

/-- A Spotify playlist entry carrying no tracks.total metadata. -/
def c7plJson : Json := Json.obj [("id", Json.str "p1"), ("name", Json.str "P")]

/-- A provider whose listing has one playlist without count metadata and
whose track listing has one item. -/
def c7http : String → Except String Json := fun url =>
  if url = spotifyListUrl then Except.ok (Json.obj [("items", Json.arr [c7plJson])])
  else if url = "https://api.spotify.com/v1/playlists/p1/tracks" then
    Except.ok (Json.obj [("items", Json.arr
      [Json.obj [("track", Json.obj [("name", Json.str "T")])]])])
  else Except.error "not found"

/-- The playlist c7http makes the fetch return. -/
def c7item : PlaylistItem :=
  { id := "p1", name := "P", cover := "", track_count := 0,
    tracks := [{ title := "T", artist := "", isrc := none }] }

/-- YouTube fetch environment with one playlist and one track used by the
track-count witness. -/
def c7wEnv : YtFetchEnv :=
  { playlistsRes := Except.ok (Json.obj [("items", Json.arr
      [Json.obj [("id", Json.str "yp"), ("snippet", Json.obj [("title", Json.str "YP")])]])])
    tracksFor := fun _ => Except.ok (Json.obj [("items", Json.arr
      [Json.obj [("snippet", Json.obj [("title", Json.str "S"),
        ("videoOwnerChannelTitle", Json.str "C")])]])]) }

/-- The playlist c7wEnv makes the fetch return. -/
def c7wItem : PlaylistItem :=
  { id := "yp", name := "YP", cover := "", track_count := 1,
    tracks := [{ title := "S", artist := "C", isrc := none }] }

/-- Apple fetch environment whose tracks requests answer with an empty
body. -/
def c8env : AppleFetchEnv := { http := fun _ => Except.ok Json.null }

/-- An Apple playlist entry whose artwork URL is the provider template. -/
def c8p : Json :=
  Json.obj [("attributes", Json.obj
    [("name", Json.str "P"),
     ("artwork", Json.obj [("url", Json.str "https://x/{w}x{h}bb.{f}")])])]

/-- The playlist c8p produces: the template URL normalized to a concrete
size and format. -/
def c8item : PlaylistItem :=
  { id := "", name := "P", cover := "https://x/300x300bb.jpg", track_count := 0, tracks := [] }

/-- A playlistItems entry whose channel title repeats the Topic suffix. -/
def c9item : Json :=
  Json.obj [("snippet", Json.obj [("title", Json.str "Song"),
    ("videoOwnerChannelTitle", Json.str "A - Topic - Topic")])]

/-- A playlistItems entry whose channel title carries one Topic suffix. -/
def c9wItem : Json :=
  Json.obj [("snippet", Json.obj [("title", Json.str "Song"),
    ("videoOwnerChannelTitle", Json.str "Artist Name - Topic")])]

/-- YouTube fetch environment with one playlist and one track whose
provider entry carries an ISRC-like field that the adapter ignores. -/
def c10wEnv : YtFetchEnv :=
  { playlistsRes := Except.ok (Json.obj [("items", Json.arr
      [Json.obj [("id", Json.str "yp"), ("snippet", Json.obj [("title", Json.str "YP")])]])])
    tracksFor := fun _ => Except.ok (Json.obj [("items", Json.arr
      [Json.obj [("snippet", Json.obj [("title", Json.str "Song"),
        ("videoOwnerChannelTitle", Json.str "Artist"),
        ("isrc", Json.str "USX000000003")])]])]) }

/-- The track c10wEnv makes the fetch return. -/
def c10wT : Track := { title := "Song", artist := "Artist", isrc := none }

/-- The playlist c10wEnv makes the fetch return. -/
def c10wP : PlaylistItem :=
  { id := "yp", name := "YP", cover := "", track_count := 1, tracks := [c10wT] }

/-! Helper lemmas. -/

theorem ytLoop_not_panicked (env : YtEnv) (tracks : List Track) (i : Nat) :
    ((ytLoop env tracks i).1).isPanicked = false := by
  induction tracks generalizing i with
  | nil => rfl
  | cons t rest ih =>
    simp only [ytLoop]
    split
    · rfl
    · split
      · exact ih (i + 1)
      · split
        · rfl
        · exact ih (i + 1)

theorem appleLoop_not_panicked (env : AppleEnv) (tracks : List Track) (i : Nat) :
    ((appleLoop env tracks i).1).isPanicked = false := by
  induction tracks generalizing i with
  | nil => rfl
  | cons t rest ih =>
    simp only [appleLoop]
    split
    · rfl
    · split
      · exact ih (i + 1)
      · split
        · rfl
        · exact ih (i + 1)

theorem appleEntry_not_panicked (env : AppleFetchEnv) (p : Json) :
    (appleEntry env p).isPanicked = false := by
  simp only [appleEntry]
  split
  · rfl
  · rfl

theorem appleFetchLoop_not_panicked (env : AppleFetchEnv) (items : List Json) :
    (appleFetchLoop env items).isPanicked = false := by
  induction items with
  | nil => rfl
  | cons p rest ih =>
    simp only [appleFetchLoop]
    split
    · rfl
    · rename_i m he
      have := appleEntry_not_panicked env p
      rw [he] at this
      exact absurd this (by simp [RResult.isPanicked])
    · split
      · rfl
      · rename_i m hr
        rw [hr] at ih
        exact absurd ih (by simp [RResult.isPanicked])
      · rfl

theorem spotifyEntry_not_panicked (env : SpotifyFetchEnv) (pl : Json) :
    (spotifyEntry env pl).isPanicked = false := by
  simp only [spotifyEntry]
  split
  · rfl
  · rfl

theorem spotifyFetchLoop_not_panicked (env : SpotifyFetchEnv) (items : List Json) :
    (spotifyFetchLoop env items).isPanicked = false := by
  induction items with
  | nil => rfl
  | cons p rest ih =>
    simp only [spotifyFetchLoop]
    split
    · rfl
    · rename_i m he
      have := spotifyEntry_not_panicked env p
      rw [he] at this
      exact absurd this (by simp [RResult.isPanicked])
    · split
      · rfl
      · rename_i m hr
        rw [hr] at ih
        exact absurd ih (by simp [RResult.isPanicked])
      · rfl

theorem ytEntry_not_panicked (env : YtFetchEnv) (pl : Json) :
    (ytEntry env pl).isPanicked = false := by
  simp only [ytEntry]
  split
  · rfl
  · rfl

theorem ytFetchLoop_not_panicked (env : YtFetchEnv) (items : List Json) :
    (ytFetchLoop env items).isPanicked = false := by
  induction items with
  | nil => rfl
  | cons p rest ih =>
    simp only [ytFetchLoop]
    split
    · rfl
    · rename_i m he
      have := ytEntry_not_panicked env p
      rw [he] at this
      exact absurd this (by simp [RResult.isPanicked])
    · split
      · rfl
      · rename_i m hr
        rw [hr] at ih
        exact absurd ih (by simp [RResult.isPanicked])
      · rfl

theorem ytLoop_no_isrc (env : YtEnv) (tracks : List Track) (i : Nat) :
    List.filter ProviderCall.isIsrcSearch (ytLoop env tracks i).2 = [] := by
  induction tracks generalizing i with
  | nil => rfl
  | cons t rest ih =>
    simp only [ytLoop]
    split
    · rfl
    · split
      · simpa [List.filter, ProviderCall.isIsrcSearch] using ih (i + 1)
      · split
        · rfl
        · simpa [List.filter, ProviderCall.isIsrcSearch] using ih (i + 1)

theorem appleLoop_no_isrc_of_none (env : AppleEnv) (tracks : List Track)
    (h : ∀ t ∈ tracks, t.isrc = none) (i : Nat) :
    List.filter ProviderCall.isIsrcSearch (appleLoop env tracks i).2 = [] := by
  induction tracks generalizing i with
  | nil => rfl
  | cons t rest ih =>
    have ht : t.isrc = none := h t (by simp)
    have hrest : ∀ x ∈ rest, x.isrc = none := fun x hx => h x (by simp [hx])
    simp only [appleLoop, appleCallTag, ht]
    split
    · rfl
    · split
      · simpa [List.filter, ProviderCall.isIsrcSearch] using ih hrest (i + 1)
      · split
        · rfl
        · simpa [List.filter, ProviderCall.isIsrcSearch] using ih hrest (i + 1)

theorem spotifyLoop_no_isrc_of_none (env : SpotifyEnv) (tracks : List Track)
    (h : ∀ t ∈ tracks, t.isrc = none) (i : Nat) :
    List.filter ProviderCall.isIsrcSearch (spotifyLoop env tracks i).2 = [] := by
  induction tracks generalizing i with
  | nil => rfl
  | cons t rest ih =>
    have ht : t.isrc = none := h t (by simp)
    have hrest : ∀ x ∈ rest, x.isrc = none := fun x hx => h x (by simp [hx])
    simp only [spotifyLoop, spotifyCallTag, ht]
    split
    · rfl
    · split
      · simpa [List.filter, ProviderCall.isIsrcSearch] using ih hrest (i + 1)
      · split
        · rfl
        · simpa [List.filter, ProviderCall.isIsrcSearch] using ih hrest (i + 1)

theorem ytEntry_isrc_none (env : YtFetchEnv) (pl : Json) (item : PlaylistItem)
    (h : ytEntry env pl = RResult.ok item) : ∀ t ∈ item.tracks, t.isrc = none := by
  simp only [ytEntry] at h
  split at h
  · exact absurd h (by simp)
  · simp only [RResult.ok.injEq] at h
    subst h
    intro t ht
    simp only at ht
    split at ht
    · rcases List.mem_map.mp ht with ⟨j, _, rfl⟩
      rfl
    · simp at ht

theorem ytFetchLoop_isrc_none (env : YtFetchEnv) (items : List Json)
    (ps : List PlaylistItem) (h : ytFetchLoop env items = RResult.ok ps) :
    ∀ p ∈ ps, ∀ t ∈ p.tracks, t.isrc = none := by
  induction items generalizing ps with
  | nil =>
    simp only [ytFetchLoop, RResult.ok.injEq] at h
    subst h
    intro p hp
    simp at hp
  | cons pl rest ih =>
    simp only [ytFetchLoop] at h
    split at h
    · exact absurd h (by simp)
    · exact absurd h (by simp)
    · split at h
      · exact absurd h (by simp)
      · exact absurd h (by simp)
      · rename_i x1 item he x2 items2 hr
        simp only [RResult.ok.injEq] at h
        subst h
        intro p hp
        rcases List.mem_cons.mp hp with rfl | hp2
        · exact ytEntry_isrc_none env pl p he
        · exact ih items2 hr p hp2

theorem ytEntry_track_count (env : YtFetchEnv) (pl : Json) (item : PlaylistItem)
    (h : ytEntry env pl = RResult.ok item) : item.track_count = item.tracks.length := by
  simp only [ytEntry] at h
  split at h
  · exact absurd h (by simp)
  · simp only [RResult.ok.injEq] at h
    subst h
    rfl

theorem ytFetchLoop_track_count (env : YtFetchEnv) (items : List Json)
    (ps : List PlaylistItem) (h : ytFetchLoop env items = RResult.ok ps) :
    ∀ p ∈ ps, p.track_count = p.tracks.length := by
  induction items generalizing ps with
  | nil =>
    simp only [ytFetchLoop, RResult.ok.injEq] at h
    subst h
    intro p hp
    simp at hp
  | cons pl rest ih =>
    simp only [ytFetchLoop] at h
    split at h
    · exact absurd h (by simp)
    · exact absurd h (by simp)
    · split at h
      · exact absurd h (by simp)
      · exact absurd h (by simp)
      · rename_i x1 item he x2 items2 hr
        simp only [RResult.ok.injEq] at h
        subst h
        intro p hp
        rcases List.mem_cons.mp hp with rfl | hp2
        · exact ytEntry_track_count env pl p he
        · exact ih items2 hr p hp2

theorem spotifyEntry_track_count (env : SpotifyFetchEnv) (pl : Json) (item : PlaylistItem)
    (h : spotifyEntry env pl = RResult.ok item) :
    item.track_count = (((pl.get "tracks").get "total").asU64).getD 0 := by
  simp only [spotifyEntry] at h
  split at h
  · exact absurd h (by simp)
  · simp only [RResult.ok.injEq] at h
    subst h
    rfl

theorem appleEntry_track_count_of_no_meta (env : AppleFetchEnv) (p : Json)
    (item : PlaylistItem)
    (hm : ((((p.get "relationships").get "tracks").get "meta").get "total").asU64 = none)
    (h : appleEntry env p = RResult.ok item) :
    item.track_count = item.tracks.length := by
  simp only [appleEntry, hm] at h
  split at h
  · exact absurd h (by simp)
  · simp only [RResult.ok.injEq] at h
    subst h
    rfl

theorem flatten_replicate_comm (k : Nat) (q : List Char) :
    (List.replicate k q).flatten ++ q = q ++ (List.replicate k q).flatten := by
  induction k with
  | zero => simp
  | succ n ih =>
    simp only [List.replicate_succ, List.flatten_cons, List.append_assoc]
    rw [ih]

theorem reverse_flatten_replicate (k : Nat) (p : List Char) :
    ((List.replicate k p).flatten).reverse = (List.replicate k p.reverse).flatten := by
  induction k with
  | zero => simp
  | succ n ih =>
    simp only [List.replicate_succ, List.flatten_cons, List.reverse_append, ih]
    rw [flatten_replicate_comm]

theorem stripRepAux_spec (pat : List Char) (hpat : pat ≠ []) :
    ∀ (fuel : Nat) (s : List Char), s.length ≤ fuel →
      (∃ k, s = (List.replicate k pat).flatten ++ stripRepAux pat fuel s) ∧
      pat.isPrefixOf (stripRepAux pat fuel s) = false := by
  intro fuel
  induction fuel with
  | zero =>
    intro s hs
    have hnil : s = [] := List.eq_nil_of_length_eq_zero (Nat.le_zero.mp hs)
    subst hnil
    refine ⟨⟨0, by simp [stripRepAux]⟩, ?_⟩
    cases pat with
    | nil => exact absurd rfl hpat
    | cons c cs => rfl
  | succ n ih =>
    intro s hs
    by_cases hb : (!pat.isEmpty && pat.isPrefixOf s) = true
    · have hpre : pat.isPrefixOf s = true := (Bool.and_eq_true _ _ |>.mp hb).2
      have hpre2 : pat <+: s := List.isPrefixOf_iff_prefix.mp hpre
      have hp1 : 1 ≤ pat.length := by
        cases pat with
        | nil => exact absurd rfl hpat
        | cons c cs => simp
      have hslen : (List.drop pat.length s).length ≤ n := by
        have := hpre2.length_le
        simp only [List.length_drop]
        omega
      have hstep : stripRepAux pat (n + 1) s = stripRepAux pat n (List.drop pat.length s) := by
        simp only [stripRepAux, hb, if_true]
      obtain ⟨⟨k, hk⟩, hnp⟩ := ih (List.drop pat.length s) hslen
      constructor
      · refine ⟨k + 1, ?_⟩
        obtain ⟨t, ht⟩ := hpre2
        have hdrop : List.drop pat.length s = t := by
          rw [← ht]
          simp
        rw [hstep, List.replicate_succ, List.flatten_cons, List.append_assoc, ← hk, hdrop]
        exact ht.symm
      · rw [hstep]
        exact hnp
    · have hstep : stripRepAux pat (n + 1) s = s := by
        simp only [stripRepAux]
        rw [if_neg hb]
      constructor
      · exact ⟨0, by simp [hstep]⟩
      · rw [hstep]
        have hne : (!pat.isEmpty) = true := by
          cases pat with
          | nil => exact absurd rfl hpat
          | cons c cs => rfl
        cases hpre : pat.isPrefixOf s with
        | false => rfl
        | true => exact absurd (by simp [hne, hpre]) hb

theorem rustTrimEndMatches_spec (s pat : String) (hpat : pat ≠ "") :
    (∃ k, s.data = (rustTrimEndMatches s pat).data ++ (List.replicate k pat.data).flatten) ∧
    rustEndsWith (rustTrimEndMatches s pat) pat = false := by
  have hpd : pat.data ≠ [] := by
    intro hd
    apply hpat
    cases pat
    simp at hd
    simp [hd]
  have hrp : pat.data.reverse ≠ [] := by simpa using hpd
  have hlen : s.data.reverse.length ≤ s.data.length := by simp
  obtain ⟨⟨k, hk⟩, hnp⟩ := stripRepAux_spec pat.data.reverse hrp s.data.length s.data.reverse hlen
  have hdata : (rustTrimEndMatches s pat).data =
      (stripRepAux pat.data.reverse s.data.length s.data.reverse).reverse := rfl
  constructor
  · refine ⟨k, ?_⟩
    have := congrArg List.reverse hk
    simp only [List.reverse_reverse, List.reverse_append] at this
    rw [this, hdata, reverse_flatten_replicate]
    simp
  · simp only [rustEndsWith, hdata, List.reverse_reverse]
    exact hnp

theorem ytArtistOf_spec (t : String) :
    (rustEndsWith t " - Topic" = false → ytArtistOf t = t) ∧
    (∃ k, t.data = (ytArtistOf t).data ++ (List.replicate k (" - Topic").data).flatten) ∧
    rustEndsWith (ytArtistOf t) " - Topic" = false := by
  by_cases h : rustEndsWith t " - Topic" = true
  · have ha : ytArtistOf t = rustTrimEndMatches t " - Topic" := by
      simp [ytArtistOf, h]
    obtain ⟨hex, hend⟩ := rustTrimEndMatches_spec t " - Topic" (by decide)
    refine ⟨?_, ?_, ?_⟩
    · intro hf
      rw [h] at hf
      exact absurd hf (by simp)
    · rw [ha]
      exact hex
    · rw [ha]
      exact hend
  · have hf : rustEndsWith t " - Topic" = false := by
      cases hv : rustEndsWith t " - Topic" with
      | false => rfl
      | true => exact absurd hv h
    have ha : ytArtistOf t = t := by
      simp [ytArtistOf, hf]
    refine ⟨fun _ => ha, ⟨0, by simp [ha]⟩, by rw [ha]; exact hf⟩

theorem ytLoop_complete (env : YtEnv) (sj : Nat → Json)
    (hs : ∀ i, env.searchRes i = Except.ok (sj i))
    (ha : ∀ i, env.appendRes i = Except.ok ())
    (tracks : List Track) (i0 : Nat) :
    (ytLoop env tracks i0).1 = RResult.ok () ∧
    (List.filter ProviderCall.isTextSearch (ytLoop env tracks i0).2).length = tracks.length ∧
    (List.filter ProviderCall.isAppend (ytLoop env tracks i0).2).length
        + List.countP (fun k => (ytVideoIdOf (sj (i0 + k))).isNone) (List.range tracks.length)
      = tracks.length := by
  induction tracks generalizing i0 with
  | nil => exact ⟨rfl, rfl, rfl⟩
  | cons t rest ih =>
    obtain ⟨ih1, ih2, ih3⟩ := ih (i0 + 1)
    have hcnt : List.countP (fun k => (ytVideoIdOf (sj (i0 + k))).isNone)
        (List.range (t :: rest).length)
        = List.countP (fun k => (ytVideoIdOf (sj ((i0 + 1) + k))).isNone)
            (List.range rest.length)
          + (if (ytVideoIdOf (sj i0)).isNone then 1 else 0) := by
      simp only [List.length_cons, List.range_succ_eq_map, List.countP_cons, List.countP_map]
      have harg : ((fun k => (ytVideoIdOf (sj (i0 + k))).isNone) ∘ Nat.succ)
          = fun k => (ytVideoIdOf (sj ((i0 + 1) + k))).isNone := by
        funext k
        have hik : i0 + Nat.succ k = i0 + 1 + k := by omega
        simp only [Function.comp_apply, hik]
      rw [harg]
      simp
    simp only [ytLoop, hs i0]
    cases hvid : ytVideoIdOf (sj i0) with
    | none =>
      refine ⟨ih1, ?_, ?_⟩
      · simp [List.filter_cons, ProviderCall.isTextSearch, ih2]
      · rw [hcnt, hvid]
        simp [List.filter_cons, ProviderCall.isAppend]
        omega
    | some vid =>
      simp only [ha i0]
      refine ⟨ih1, ?_, ?_⟩
      · simp [List.filter_cons, ProviderCall.isTextSearch, ProviderCall.isAppend, ih2]
      · rw [hcnt, hvid]
        simp [List.filter_cons, ProviderCall.isAppend]
        omega

theorem appleCallTag_isSearch (t : Track) : ProviderCall.isSearch (appleCallTag t) = true := by
  cases h : t.isrc <;> simp [appleCallTag, h, ProviderCall.isSearch]

theorem appleCallTag_not_append (t : Track) : ProviderCall.isAppend (appleCallTag t) = false := by
  cases h : t.isrc <;> simp [appleCallTag, h, ProviderCall.isAppend]

theorem append_not_isSearch (s : String) :
    ProviderCall.isSearch (ProviderCall.append s) = false := rfl

theorem append_isAppend (s : String) :
    ProviderCall.isAppend (ProviderCall.append s) = true := rfl

theorem appleLoop_complete (env : AppleEnv) (sj : Nat → Json)
    (hs : ∀ i, env.searchRes i = Except.ok (sj i))
    (ha : ∀ i, env.appendRes i = Except.ok ())
    (tracks : List Track) (i0 : Nat) :
    (appleLoop env tracks i0).1 = RResult.ok () ∧
    (List.filter ProviderCall.isSearch (appleLoop env tracks i0).2).length = tracks.length ∧
    (List.filter ProviderCall.isAppend (appleLoop env tracks i0).2).length
        + List.countP
            (fun k => (appleCatalogIdOf (tracks.getD k ⟨"", "", none⟩) (sj (i0 + k))).isNone)
            (List.range tracks.length)
      = tracks.length := by
  induction tracks generalizing i0 with
  | nil => exact ⟨rfl, rfl, rfl⟩
  | cons t rest ih =>
    obtain ⟨ih1, ih2, ih3⟩ := ih (i0 + 1)
    have hcnt : List.countP
        (fun k => (appleCatalogIdOf ((t :: rest).getD k ⟨"", "", none⟩) (sj (i0 + k))).isNone)
        (List.range (t :: rest).length)
        = List.countP
            (fun k => (appleCatalogIdOf (rest.getD k ⟨"", "", none⟩) (sj ((i0 + 1) + k))).isNone)
            (List.range rest.length)
          + (if (appleCatalogIdOf t (sj i0)).isNone then 1 else 0) := by
      simp only [List.length_cons, List.range_succ_eq_map, List.countP_cons, List.countP_map]
      have harg : ((fun k =>
            (appleCatalogIdOf ((t :: rest).getD k ⟨"", "", none⟩) (sj (i0 + k))).isNone)
              ∘ Nat.succ)
          = fun k => (appleCatalogIdOf (rest.getD k ⟨"", "", none⟩) (sj ((i0 + 1) + k))).isNone := by
        funext k
        have hik : i0 + Nat.succ k = i0 + 1 + k := by omega
        simp only [Function.comp_apply, hik, List.getD_cons_succ]
      rw [harg]
      simp
    simp only [appleLoop, hs i0]
    cases hcid : appleCatalogIdOf t (sj i0) with
    | none =>
      refine ⟨ih1, ?_, ?_⟩
      · simp [List.filter_cons, appleCallTag_isSearch, ih2]
      · rw [hcnt, hcid]
        simp [List.filter_cons, appleCallTag_not_append] at ih3 ⊢
        omega
    | some cid =>
      simp only [ha i0]
      refine ⟨ih1, ?_, ?_⟩
      · simp [List.filter_cons, appleCallTag_isSearch, append_not_isSearch, ih2]
      · rw [hcnt, hcid]
        simp [List.filter_cons, appleCallTag_not_append, append_isAppend] at ih3 ⊢
        omega

theorem appleLoop_isrc_miss (env : AppleEnv) (t : Track) (rest : List Track) (i : Nat)
    (s : String) (v : Json) (hisrc : t.isrc = some s)
    (hres : env.searchRes i = Except.ok v) (hmiss : appleIsrcIdOf v = none) :
    appleLoop env (t :: rest) i =
      ((appleLoop env rest (i + 1)).1,
        ProviderCall.searchIsrc s :: (appleLoop env rest (i + 1)).2) := by
  have hcid : appleCatalogIdOf t v = none := by
    simp [appleCatalogIdOf, hisrc, hmiss]
  simp only [appleLoop, hres, hcid, appleCallTag, hisrc]

theorem spotifyLoop_isrc_miss (env : SpotifyEnv) (t : Track) (rest : List Track) (i : Nat)
    (s : String) (v : Json) (hisrc : t.isrc = some s)
    (hres : env.searchRes i = Except.ok v) (hmiss : spotifyUriOf v = none) :
    spotifyLoop env (t :: rest) i =
      ((spotifyLoop env rest (i + 1)).1,
        ProviderCall.searchIsrc s :: (spotifyLoop env rest (i + 1)).2) := by
  simp only [spotifyLoop, hres, hmiss, spotifyCallTag, hisrc]

theorem appleLoop_head_isrc (env : AppleEnv) (t : Track) (rest : List Track) (i : Nat)
    (s : String) (hisrc : t.isrc = some s) :
    ((appleLoop env (t :: rest) i).2).head? = some (ProviderCall.searchIsrc s) := by
  simp only [appleLoop, appleCallTag, hisrc]
  split
  · rfl
  · split
    · rfl
    · split
      · rfl
      · rfl

theorem spotifyLoop_head_isrc (env : SpotifyEnv) (t : Track) (rest : List Track) (i : Nat)
    (s : String) (hisrc : t.isrc = some s) :
    ((spotifyLoop env (t :: rest) i).2).head? = some (ProviderCall.searchIsrc s) := by
  simp only [spotifyLoop, spotifyCallTag, hisrc]
  split
  · rfl
  · split
    · rfl
    · split
      · rfl
      · rfl

theorem spotifyEntry_http_congr (h1 h2 : String → Except String Json) (pl : Json)
    (ht : h1 (spotifyTracksUrl (((pl.get "id").asStr).getD "")) =
          h2 (spotifyTracksUrl (((pl.get "id").asStr).getD ""))) :
    spotifyEntry ⟨h1⟩ pl = spotifyEntry ⟨h2⟩ pl := by
  simp only [spotifyEntry, ht]

theorem spotifyFetchLoop_http_congr (h1 h2 : String → Except String Json)
    (items : List Json)
    (ht : ∀ pl ∈ items, h1 (spotifyTracksUrl (((pl.get "id").asStr).getD "")) =
          h2 (spotifyTracksUrl (((pl.get "id").asStr).getD ""))) :
    spotifyFetchLoop ⟨h1⟩ items = spotifyFetchLoop ⟨h2⟩ items := by
  induction items with
  | nil => rfl
  | cons pl rest ih =>
    have hpl := ht pl (by simp)
    have hrest : ∀ x ∈ rest, h1 (spotifyTracksUrl (((x.get "id").asStr).getD "")) =
        h2 (spotifyTracksUrl (((x.get "id").asStr).getD "")) :=
      fun x hx => ht x (by simp [hx])
    simp only [spotifyFetchLoop, spotifyEntry_http_congr h1 h2 pl hpl, ih hrest]

theorem fetch_yt_isrc_none (env : YtFetchEnv) (ps : List PlaylistItem)
    (hf : fetch_youtube_playlists env = RResult.ok ps) :
    ∀ p ∈ ps, ∀ t ∈ p.tracks, t.isrc = none := by
  simp only [fetch_youtube_playlists] at hf
  split at hf
  · exact absurd hf (by simp)
  · split at hf
    · simp only [RResult.ok.injEq] at hf
      subst hf
      intro p hp
      simp at hp
    · exact ytFetchLoop_isrc_none env _ ps hf

/-! Claim theorems. -/

/-- Claim C1, counterexample: with two tracks where the first per-track
search fails with a transport error, create_playlist_to_youtube aborts
with that error, searches only one of the two tracks, and returns no
report: the claim that a resolution failure never aborts the transfer is
false on the code. -/
theorem c1_counterexample :
    create_playlist_to_youtube c1env c1pl =
      (RResult.err "connection reset", [ProviderCall.searchText "T0 A0"]) ∧
    c1pl.tracks.length = 2 ∧
    (List.filter ProviderCall.isTextSearch (create_playlist_to_youtube c1env c1pl).2).length
      < c1pl.tracks.length ∧
    ((create_playlist_to_youtube c1env c1pl).1).isOk = false := by
  exact ⟨rfl, rfl, by decide, rfl⟩

/-- Claim C1 as amended: when no per-track provider call fails at the
transport level, the YouTube and Apple transfer loops never abort: every
one of the N tracks is searched exactly once in order, the K tracks whose
search response yields no destination id are skipped, and exactly N - K
appends are issued.  (No report object exists in the code; the functions
return unit, and a transport error on any per-track call aborts the whole
transfer.) -/
theorem c1_theorem (envY : YtEnv) (envA : AppleEnv) (pl : PlaylistItem)
    (sjY sjA : Nat → Json)
    (hsY : ∀ i, envY.searchRes i = Except.ok (sjY i))
    (haY : ∀ i, envY.appendRes i = Except.ok ())
    (hsA : ∀ i, envA.searchRes i = Except.ok (sjA i))
    (haA : ∀ i, envA.appendRes i = Except.ok ())
    (tok : String) (hY1 : envY.accessToken = some tok)
    (cj : Json) (hY2 : envY.createRes = Except.ok cj)
    (hY3 : ((cj.get "id").asStr).isSome = true)
    (dt : String) (hA1 : envA.devToken = Except.ok dt)
    (ut : String) (hA2 : envA.userToken = some ut)
    (hA3 : envA.clientBuild = Except.ok ())
    (body : String) (hA4 : envA.createResp = Except.ok (true, body))
    (pv : Json) (hA5 : envA.parseBody body = Except.ok pv)
    (hA6 : ((((pv.get "data").idx 0).get "id").asStr).isSome = true) :
    ((create_playlist_to_youtube envY pl).1 = RResult.ok () ∧
      (List.filter ProviderCall.isTextSearch (create_playlist_to_youtube envY pl).2).length
        = pl.tracks.length ∧
      (List.filter ProviderCall.isAppend (create_playlist_to_youtube envY pl).2).length
        = pl.tracks.length - List.countP (fun k => (ytVideoIdOf (sjY k)).isNone)
            (List.range pl.tracks.length)) ∧
    ((create_playlist_to_apple envA pl).1 = RResult.ok () ∧
      (List.filter ProviderCall.isSearch (create_playlist_to_apple envA pl).2).length
        = pl.tracks.length ∧
      (List.filter ProviderCall.isAppend (create_playlist_to_apple envA pl).2).length
        = pl.tracks.length - List.countP
            (fun k => (appleCatalogIdOf (pl.tracks.getD k ⟨"", "", none⟩) (sjA k)).isNone)
            (List.range pl.tracks.length)) := by
  obtain ⟨pid, hpid⟩ := Option.isSome_iff_exists.mp hY3
  obtain ⟨aid, haid⟩ := Option.isSome_iff_exists.mp hA6
  have hyt : create_playlist_to_youtube envY pl = ytLoop envY pl.tracks 0 := by
    simp only [create_playlist_to_youtube, hY1, hY2, hpid]
  have hap : create_playlist_to_apple envA pl = appleLoop envA pl.tracks 0 := by
    simp only [create_playlist_to_apple, hA1, hA2, hA3, hA4, hA5, haid]
    simp
  obtain ⟨hy1, hy2, hy3⟩ := ytLoop_complete envY sjY hsY haY pl.tracks 0
  obtain ⟨hb1, hb2, hb3⟩ := appleLoop_complete envA sjA hsA haA pl.tracks 0
  have hz : (fun k => (ytVideoIdOf (sjY (0 + k))).isNone)
      = fun k => (ytVideoIdOf (sjY k)).isNone := by
    funext k
    simp
  have hzA : (fun k => (appleCatalogIdOf (pl.tracks.getD k ⟨"", "", none⟩) (sjA (0 + k))).isNone)
      = fun k => (appleCatalogIdOf (pl.tracks.getD k ⟨"", "", none⟩) (sjA k)).isNone := by
    funext k
    simp
  rw [hz] at hy3
  rw [hzA] at hb3
  rw [hyt, hap]
  exact ⟨⟨hy1, hy2, by omega⟩, ⟨hb1, hb2, by omega⟩⟩

/-- Claim C1 witness: the amended theorem applied to an error-free
two-track run on YouTube and on Apple where one of the two tracks
matches. -/
theorem c1_witness :
    ((create_playlist_to_youtube c1wEnvY c1wPl).1 = RResult.ok () ∧
      (List.filter ProviderCall.isTextSearch (create_playlist_to_youtube c1wEnvY c1wPl).2).length
        = c1wPl.tracks.length ∧
      (List.filter ProviderCall.isAppend (create_playlist_to_youtube c1wEnvY c1wPl).2).length
        = c1wPl.tracks.length - List.countP (fun k => (ytVideoIdOf (c1wSearchY k)).isNone)
            (List.range c1wPl.tracks.length)) ∧
    ((create_playlist_to_apple c1wEnvA c1wPl).1 = RResult.ok () ∧
      (List.filter ProviderCall.isSearch (create_playlist_to_apple c1wEnvA c1wPl).2).length
        = c1wPl.tracks.length ∧
      (List.filter ProviderCall.isAppend (create_playlist_to_apple c1wEnvA c1wPl).2).length
        = c1wPl.tracks.length - List.countP
            (fun k => (appleCatalogIdOf (c1wPl.tracks.getD k ⟨"", "", none⟩)
              (c1wSearchA k)).isNone)
            (List.range c1wPl.tracks.length)) :=
  c1_theorem c1wEnvY c1wEnvA c1wPl c1wSearchY c1wSearchA
    (fun _ => rfl) (fun _ => rfl) (fun _ => rfl) (fun _ => rfl)
    "tok" rfl (Json.obj [("id", Json.str "PL1")]) rfl rfl
    "dev" rfl "u" rfl rfl
    "create-body" rfl (Json.obj [("data", Json.arr [Json.obj [("id", Json.str "newpl")]])]) rfl
    rfl

/-- Claim C2, counterexample: the YouTube transfer path issues a
text-mode search and no ISRC-mode search for a track whose isrc is set,
so the claim that every destination path attempts ISRC-mode first does
not hold for YouTube. -/
theorem c2_counterexample :
    c2pl.tracks = [{ title := "T", artist := "A", isrc := some "JPA000000001" }] ∧
    (create_playlist_to_youtube c2env c2pl).2 =
      [ProviderCall.searchText "T A", ProviderCall.append "v2"] ∧
    List.filter ProviderCall.isIsrcSearch (create_playlist_to_youtube c2env c2pl).2 = [] := by
  exact ⟨rfl, rfl, rfl⟩

/-- Claim C2 as amended: on the Apple and Spotify transfer paths the
first provider call issued for a track whose isrc is set is an ISRC-mode
search, while the YouTube transfer path never issues an ISRC-mode search
at all. -/
theorem c2_theorem :
    (∀ (env : AppleEnv) (t : Track) (rest : List Track) (i : Nat) (s : String),
      t.isrc = some s →
      ((appleLoop env (t :: rest) i).2).head? = some (ProviderCall.searchIsrc s)) ∧
    (∀ (env : SpotifyEnv) (t : Track) (rest : List Track) (i : Nat) (s : String),
      t.isrc = some s →
      ((spotifyLoop env (t :: rest) i).2).head? = some (ProviderCall.searchIsrc s)) ∧
    (∀ (env : YtEnv) (tracks : List Track) (i : Nat),
      List.filter ProviderCall.isIsrcSearch (ytLoop env tracks i).2 = []) :=
  ⟨fun env t rest i s h => appleLoop_head_isrc env t rest i s h,
   fun env t rest i s h => spotifyLoop_head_isrc env t rest i s h,
   fun env tracks i => ytLoop_no_isrc env tracks i⟩

/-- Claim C2 witness: the amended theorem applied to a one-track playlist
whose track carries the ISRC US1, on all three providers. -/
theorem c2_witness :
    ((appleLoop c2wAppleEnv [{ title := "T", artist := "A", isrc := some "US1" }] 0).2).head?
      = some (ProviderCall.searchIsrc "US1") ∧
    ((spotifyLoop c2wSpotifyEnv [{ title := "T", artist := "A", isrc := some "US1" }] 0).2).head?
      = some (ProviderCall.searchIsrc "US1") ∧
    List.filter ProviderCall.isIsrcSearch
      (ytLoop c2env [{ title := "T", artist := "A", isrc := some "US1" }] 0).2 = [] :=
  ⟨c2_theorem.1 c2wAppleEnv _ [] 0 "US1" rfl,
   c2_theorem.2.1 c2wSpotifyEnv _ [] 0 "US1" rfl,
   c2_theorem.2.2 c2env _ 0⟩

/-- Claim C3, counterexample: for a track whose isrc is set and whose
ISRC search answers with an empty data array, the Apple transfer finishes
with the track skipped after issuing only the ISRC search: no text-mode
fallback search is issued, so the claim that an ISRC miss is never
terminal is false on the code. -/
theorem c3_counterexample :
    c3pl.tracks = [{ title := "T", artist := "A", isrc := some "JPX000000002" }] ∧
    appleIsrcIdOf c3emptyData = none ∧
    create_playlist_to_apple c3env c3pl =
      (RResult.ok (), [ProviderCall.searchIsrc "JPX000000002"]) ∧
    List.filter ProviderCall.isTextSearch (create_playlist_to_apple c3env c3pl).2 = [] ∧
    List.filter ProviderCall.isAppend (create_playlist_to_apple c3env c3pl).2 = [] := by
  exact ⟨rfl, rfl, rfl, rfl, rfl⟩

/-- Claim C3 as amended: when a track's isrc is set and the ISRC-mode
search response yields no destination id, the Apple and Spotify transfer
loops record the track as unmatched and move on: the track contributes
exactly its one ISRC search to the call trace, with no text-mode fallback
and no append. -/
theorem c3_theorem :
    (∀ (env : AppleEnv) (t : Track) (rest : List Track) (i : Nat) (s : String) (v : Json),
      t.isrc = some s → env.searchRes i = Except.ok v → appleIsrcIdOf v = none →
      appleLoop env (t :: rest) i =
        ((appleLoop env rest (i + 1)).1,
          ProviderCall.searchIsrc s :: (appleLoop env rest (i + 1)).2)) ∧
    (∀ (env : SpotifyEnv) (t : Track) (rest : List Track) (i : Nat) (s : String) (v : Json),
      t.isrc = some s → env.searchRes i = Except.ok v → spotifyUriOf v = none →
      spotifyLoop env (t :: rest) i =
        ((spotifyLoop env rest (i + 1)).1,
          ProviderCall.searchIsrc s :: (spotifyLoop env rest (i + 1)).2)) :=
  ⟨fun env t rest i s v h1 h2 h3 => appleLoop_isrc_miss env t rest i s v h1 h2 h3,
   fun env t rest i s v h1 h2 h3 => spotifyLoop_isrc_miss env t rest i s v h1 h2 h3⟩

/-- Claim C3 witness: the amended theorem applied to a one-track playlist
with an ISRC miss on Apple and on Spotify. -/
theorem c3_witness :
    appleLoop c3env [{ title := "T", artist := "A", isrc := some "JPX000000002" }] 0 =
      ((appleLoop c3env [] 1).1,
        ProviderCall.searchIsrc "JPX000000002" :: (appleLoop c3env [] 1).2) ∧
    spotifyLoop c3wSpotifyEnv [{ title := "T", artist := "A", isrc := some "JPX000000002" }] 0 =
      ((spotifyLoop c3wSpotifyEnv [] 1).1,
        ProviderCall.searchIsrc "JPX000000002" :: (spotifyLoop c3wSpotifyEnv [] 1).2) :=
  ⟨c3_theorem.1 c3env _ [] 0 "JPX000000002" c3emptyData rfl rfl rfl,
   c3_theorem.2 c3wSpotifyEnv _ [] 0 "JPX000000002" c3wSpotifyMiss rfl rfl rfl⟩

/-- Claim C4, counterexample: a Spotify track listing spread across three
pages of 20 items each (each page naming the next page URL) is fetched as
only the 20 first-page tracks, not 60: the fetch does not paginate. -/
theorem c4_counterexample :
    pageItemCount (c4http "https://api.spotify.com/v1/playlists/p1/tracks") = 20 ∧
    pageItemCount (c4http "https://api.spotify.com/v1/playlists/p1/tracks?offset=20") = 20 ∧
    pageItemCount (c4http "https://api.spotify.com/v1/playlists/p1/tracks?offset=40") = 20 ∧
    fetchedTrackLens (fetch_spotify_playlists ⟨c4http⟩) = [20] ∧
    ((20 : Nat) == 60) = false := by
  exact ⟨rfl, rfl, rfl, rfl, rfl⟩

/-- Claim C4 as amended: fetch_spotify_playlists requests exactly the
fixed first-page listing URL and, per playlist, the single un-paged
tracks URL; its result is unchanged under arbitrary changes to the
provider's responses at every other URL, in particular at all
follow-up-page URLs. -/
theorem c4_theorem (h1 h2 : String → Except String Json)
    (hlist : h1 spotifyListUrl = h2 spotifyListUrl)
    (htracks : ∀ pl ∈ spotifyListingItems (h1 spotifyListUrl),
      h1 (spotifyTracksUrl (((pl.get "id").asStr).getD "")) =
      h2 (spotifyTracksUrl (((pl.get "id").asStr).getD ""))) :
    fetch_spotify_playlists ⟨h1⟩ = fetch_spotify_playlists ⟨h2⟩ := by
  simp only [fetch_spotify_playlists, ← hlist]
  cases hr : h1 spotifyListUrl with
  | error e => rfl
  | ok resp =>
    dsimp only
    cases hi : (resp.get "items").asArr with
    | none => rfl
    | some items =>
      dsimp only
      apply spotifyFetchLoop_http_congr
      intro pl hpl
      apply htracks
      simp [spotifyListingItems, hr, hi]
      exact hpl

/-- Claim C4 witness: deleting the second and third pages from the
provider leaves the fetched result unchanged. -/
theorem c4_witness :
    fetch_spotify_playlists ⟨c4http⟩ = fetch_spotify_playlists ⟨c4httpB⟩ :=
  c4_theorem c4http c4httpB rfl (by
    intro pl hpl
    have hlst : spotifyListingItems (c4http spotifyListUrl) = [c4plJson] := rfl
    rw [hlst] at hpl
    simp only [List.mem_singleton] at hpl
    subst hpl
    rfl)

/-- Claim C5, counterexample: when the Spotify playlist-creation response
carries no id, create_playlist_to_spotify panics via unwrap instead of
returning an error, so the claim that creation rejection always yields a
single returned error is false on the code (it does make zero further
calls). -/
theorem c5_counterexample :
    create_playlist_to_spotify c5env c5pl = (RResult.panicked unwrapNoneMsg, []) ∧
    ((create_playlist_to_spotify c5env c5pl).1).isPanicked = true ∧
    ((create_playlist_to_spotify c5env c5pl).1).isOk = false ∧
    ((Json.obj [("error", Json.str "forbidden")]).get "id").asStr = none := by
  exact ⟨rfl, rfl, rfl, rfl⟩

/-- Claim C5 as amended: a rejected playlist creation stops the transfer
before any search or append call on all three paths, but the surfaced
outcome differs: Apple returns an error carrying the raw provider body;
YouTube returns the fixed message about the missing playlist id (the raw
body is not surfaced); Spotify panics via unwrap on the missing id. -/
theorem c5_theorem (envA : AppleEnv) (plA : PlaylistItem) (dt ut body : String)
    (hA1 : envA.devToken = Except.ok dt) (hA2 : envA.userToken = some ut)
    (hA3 : envA.clientBuild = Except.ok ())
    (hA4 : envA.createResp = Except.ok (false, body))
    (envY : YtEnv) (plY : PlaylistItem) (tokY : String) (cj : Json)
    (hY1 : envY.accessToken = some tokY) (hY2 : envY.createRes = Except.ok cj)
    (hY3 : (cj.get "id").asStr = none)
    (envS : SpotifyEnv) (plS : PlaylistItem) (rt cid cs atok uid : String)
    (tj mj cjS : Json)
    (hS1 : envS.refreshToken = some rt) (hS2 : envS.clientId = Except.ok cid)
    (hS3 : envS.clientSecret = Except.ok cs) (hS4 : envS.tokenRes = Except.ok tj)
    (hS5 : (tj.get "access_token").asStr = some atok)
    (hS6 : envS.meRes = Except.ok mj) (hS7 : (mj.get "id").asStr = some uid)
    (hS8 : envS.createRes = Except.ok cjS) (hS9 : (cjS.get "id").asStr = none) :
    create_playlist_to_apple envA plA =
      (RResult.err ("create playlist failed: " ++ body), []) ∧
    create_playlist_to_youtube envY plY = (RResult.err "failed to get playlist id", []) ∧
    create_playlist_to_spotify envS plS = (RResult.panicked unwrapNoneMsg, []) := by
  refine ⟨?_, ?_, ?_⟩
  · simp only [create_playlist_to_apple, hA1, hA2, hA3, hA4]
    simp
  · simp only [create_playlist_to_youtube, hY1, hY2, hY3]
  · simp only [create_playlist_to_spotify, hS1, hS2, hS3, hS4, hS5, hS6, hS7, hS8, hS9]

/-- Claim C5 witness: the amended theorem applied to a rejected creation
on each provider. -/
theorem c5_witness :
    create_playlist_to_apple c5wEnvA c5pl =
      (RResult.err ("create playlist failed: " ++ "forbidden-raw-provider-body"), []) ∧
    create_playlist_to_youtube c5wEnvY c5pl = (RResult.err "failed to get playlist id", []) ∧
    create_playlist_to_spotify c5env c5pl = (RResult.panicked unwrapNoneMsg, []) :=
  c5_theorem c5wEnvA c5pl "dev" "u" "forbidden-raw-provider-body" rfl rfl rfl rfl
    c5wEnvY c5pl "tok" (Json.obj [("error", Json.str "forbidden")]) rfl rfl rfl
    c5env c5pl "r" "cid" "cs" "tokA" "user1"
    (Json.obj [("access_token", Json.str "tokA")])
    (Json.obj [("id", Json.str "user1")])
    (Json.obj [("error", Json.str "forbidden")])
    rfl rfl rfl rfl rfl rfl rfl rfl rfl

/-- Claim C6, counterexample: a Spotify user-profile response without an
id string makes create_playlist_to_spotify panic via unwrap, so the claim
that no missing provider field can crash a transfer operation is false on
the code. -/
theorem c6_counterexample :
    create_playlist_to_spotify c6env c6pl = (RResult.panicked unwrapNoneMsg, []) ∧
    ((create_playlist_to_spotify c6env c6pl).1).isPanicked = true ∧
    ((Json.obj ([] : List (String × Json))).get "id").asStr = none := by
  exact ⟨rfl, rfl, rfl⟩

/-- Claim C6 as amended: the three fetch operations and the YouTube and
Apple transfer operations never panic for any provider response shape
(missing fields degrade to empty or default values); only
create_playlist_to_spotify can panic, through its two unwrap calls. -/
theorem c6_theorem :
    (∀ env : AppleFetchEnv, (fetch_apple_playlists env).isPanicked = false) ∧
    (∀ env : SpotifyFetchEnv, (fetch_spotify_playlists env).isPanicked = false) ∧
    (∀ env : YtFetchEnv, (fetch_youtube_playlists env).isPanicked = false) ∧
    (∀ (env : YtEnv) (pl : PlaylistItem),
      ((create_playlist_to_youtube env pl).1).isPanicked = false) ∧
    (∀ (env : AppleEnv) (pl : PlaylistItem),
      ((create_playlist_to_apple env pl).1).isPanicked = false) := by
  refine ⟨?_, ?_, ?_, ?_, ?_⟩
  · intro env
    simp only [fetch_apple_playlists]
    split
    · rfl
    · split
      · rfl
      · exact appleFetchLoop_not_panicked env _
  · intro env
    simp only [fetch_spotify_playlists]
    split
    · rfl
    · split
      · rfl
      · exact spotifyFetchLoop_not_panicked env _
  · intro env
    simp only [fetch_youtube_playlists]
    split
    · rfl
    · split
      · rfl
      · exact ytFetchLoop_not_panicked env _
  · intro env pl
    simp only [create_playlist_to_youtube]
    split
    · rfl
    · split
      · rfl
      · split
        · rfl
        · exact ytLoop_not_panicked env pl.tracks 0
  · intro env pl
    simp only [create_playlist_to_apple]
    split
    · rfl
    · split
      · rfl
      · split
        · rfl
        · split
          · rfl
          · split
            · rfl
            · split
              · rfl
              · split
                · rfl
                · exact appleLoop_not_panicked env pl.tracks 0

/-- Claim C7, counterexample: a Spotify playlist entry without a
tracks.total metadata field is surfaced with track_count 0 even though
one track was fetched, so neither the fallback to len(tracks) nor the
invariant track_count >= len(tracks) holds on the code. -/
theorem c7_counterexample :
    fetch_spotify_playlists ⟨c7http⟩ = RResult.ok [c7item] ∧
    ((c7plJson.get "tracks").get "total").asU64 = none ∧
    c7item.track_count = 0 ∧
    c7item.tracks.length = 1 ∧
    c7item.track_count < c7item.tracks.length := by
  exact ⟨rfl, rfl, rfl, rfl, by decide⟩

/-- Claim C7 as amended: track_count is provider dependent.  YouTube
derives it as len(tracks) for every returned playlist; Apple takes
relationships.tracks.meta.total and falls back to len(tracks) only when
that metadata is absent; Spotify takes tracks.total and falls back to 0,
not len(tracks), so track_count >= len(tracks) is not guaranteed. -/
theorem c7_theorem :
    (∀ (env : YtFetchEnv) (ps : List PlaylistItem) (p : PlaylistItem),
      fetch_youtube_playlists env = RResult.ok ps → p ∈ ps →
      p.track_count = p.tracks.length) ∧
    (∀ (env : AppleFetchEnv) (p : Json) (item : PlaylistItem),
      ((((p.get "relationships").get "tracks").get "meta").get "total").asU64 = none →
      appleEntry env p = RResult.ok item → item.track_count = item.tracks.length) ∧
    (∀ (env : SpotifyFetchEnv) (pl : Json) (item : PlaylistItem),
      spotifyEntry env pl = RResult.ok item →
      item.track_count = (((pl.get "tracks").get "total").asU64).getD 0) := by
  refine ⟨?_, ?_, ?_⟩
  · intro env ps p hf hp
    simp only [fetch_youtube_playlists] at hf
    split at hf
    · exact absurd hf (by simp)
    · split at hf
      · simp only [RResult.ok.injEq] at hf
        subst hf
        simp at hp
      · exact ytFetchLoop_track_count env _ ps hf p hp
  · exact fun env p item hm h => appleEntry_track_count_of_no_meta env p item hm h
  · exact fun env pl item h => spotifyEntry_track_count env pl item h

/-- Claim C7 witness: the amended theorem applied to a concrete
one-playlist YouTube fetch, a metadata-free Apple entry and the
metadata-free Spotify entry of the counterexample provider. -/
theorem c7_witness :
    c7wItem.track_count = c7wItem.tracks.length ∧
    c8item.track_count = c8item.tracks.length ∧
    c7item.track_count = (((c7plJson.get "tracks").get "total").asU64).getD 0 :=
  ⟨c7_theorem.1 c7wEnv [c7wItem] c7wItem rfl (by simp),
   c7_theorem.2.1 c8env c8p c8item rfl rfl,
   c7_theorem.2.2 ⟨c7http⟩ c7plJson c7item rfl⟩

/-- Claim C8: for every Apple playlist entry whose artwork url is a
non-empty string, the surfaced cover is that url with every occurrence of
the size template replaced by 300x300 and of the format template by jpg,
in that order. -/
theorem c8_theorem (env : AppleFetchEnv) (p : Json) (item : PlaylistItem) (u : String)
    (hurl : ((p.get "attributes").get "artwork").get "url" = Json.str u)
    (hne : u.isEmpty = false)
    (hok : appleEntry env p = RResult.ok item) :
    item.cover = rustReplace (rustReplace u "{w}x{h}" "300x300") "{f}" "jpg" := by
  simp only [appleEntry] at hok
  split at hok
  · exact absurd hok (by simp)
  · simp only [RResult.ok.injEq] at hok
    subst hok
    simp only [appleCoverOf, hurl, Json.asStr, Option.getD_some, hne]
    simp

/-- Claim C8 witness: the template url of the specification example is
normalized to the concrete 300x300 jpg url. -/
theorem c8_witness :
    c8item.cover =
      rustReplace (rustReplace "https://x/{w}x{h}bb.{f}" "{w}x{h}" "300x300") "{f}" "jpg" ∧
    rustReplace (rustReplace "https://x/{w}x{h}bb.{f}" "{w}x{h}" "300x300") "{f}" "jpg" =
      "https://x/300x300bb.jpg" ∧
    appleEntry c8env c8p = RResult.ok c8item :=
  ⟨c8_theorem c8env c8p c8item "https://x/{w}x{h}bb.{f}" rfl rfl rfl, rfl, rfl⟩

/-- Claim C9, counterexample: the code strips every trailing repetition
of the Topic suffix, not one: the channel title with the suffix twice is
surfaced as the bare name, not as the title with a single suffix
removed. -/
theorem c9_counterexample :
    (ytTrackOf c9item).artist = "A" ∧
    ((ytTrackOf c9item).artist ++ " - Topic" == "A - Topic - Topic") = false ∧
    ((c9item.get "snippet").get "videoOwnerChannelTitle").asStr = some "A - Topic - Topic" := by
  exact ⟨rfl, rfl, rfl⟩

/-- Claim C9 as amended: a channel title not ending in the Topic suffix
is surfaced unchanged; one that does end in it is surfaced with all of
its trailing repetitions of the suffix removed (trim_end_matches), so the
surfaced artist never ends in the suffix and the title is the surfaced
artist followed by some number of suffix copies. -/
theorem c9_theorem (item : Json) (t : String)
    (h : (item.get "snippet").get "videoOwnerChannelTitle" = Json.str t) :
    (ytTrackOf item).artist = ytArtistOf t ∧
    (rustEndsWith t " - Topic" = false → ytArtistOf t = t) ∧
    (∃ k, t.data = (ytArtistOf t).data ++ (List.replicate k (" - Topic").data).flatten) ∧
    rustEndsWith (ytArtistOf t) " - Topic" = false := by
  obtain ⟨h1, h2, h3⟩ := ytArtistOf_spec t
  refine ⟨?_, h1, h2, h3⟩
  simp [ytTrackOf, h, Json.asStr]

/-- Claim C9 witness: both specification examples, through the amended
theorem at a concrete playlistItems entry. -/
theorem c9_witness :
    (ytTrackOf c9wItem).artist = ytArtistOf "Artist Name - Topic" ∧
    ytArtistOf "Artist Name - Topic" = "Artist Name" ∧
    ytArtistOf "Artist Name" = "Artist Name" :=
  ⟨(c9_theorem c9wItem "Artist Name - Topic" rfl).1, rfl, rfl⟩

/-- Claim C10: every track surfaced by fetch_youtube_playlists has
isrc = none, and consequently a transfer of any playlist so fetched
issues no ISRC-mode search on any destination: the Apple and Spotify
per-track loops search text-mode only for isrc-free tracks, and the
YouTube loop never searches by ISRC. -/
theorem c10_theorem :
    (∀ (env : YtFetchEnv) (ps : List PlaylistItem) (p : PlaylistItem) (t : Track),
      fetch_youtube_playlists env = RResult.ok ps → p ∈ ps → t ∈ p.tracks →
      t.isrc = none) ∧
    (∀ (env : YtFetchEnv) (ps : List PlaylistItem) (p : PlaylistItem),
      fetch_youtube_playlists env = RResult.ok ps → p ∈ ps →
      (∀ (aenv : AppleEnv) (i : Nat),
        List.filter ProviderCall.isIsrcSearch (appleLoop aenv p.tracks i).2 = []) ∧
      (∀ (senv : SpotifyEnv) (i : Nat),
        List.filter ProviderCall.isIsrcSearch (spotifyLoop senv p.tracks i).2 = []) ∧
      (∀ (yenv : YtEnv) (i : Nat),
        List.filter ProviderCall.isIsrcSearch (ytLoop yenv p.tracks i).2 = [])) := by
  constructor
  · intro env ps p t hf hp ht
    exact fetch_yt_isrc_none env ps hf p hp t ht
  · intro env ps p hf hp
    have hnone : ∀ t ∈ p.tracks, t.isrc = none := fetch_yt_isrc_none env ps hf p hp
    exact ⟨fun aenv i => appleLoop_no_isrc_of_none aenv p.tracks hnone i,
           fun senv i => spotifyLoop_no_isrc_of_none senv p.tracks hnone i,
           fun yenv i => ytLoop_no_isrc yenv p.tracks i⟩

/-- Claim C10 witness: a concrete YouTube fetch whose provider entry even
carries an ISRC-like field still yields a track with isrc = none, and the
transfer loops issue no ISRC search on it. -/
theorem c10_witness :
    c10wT.isrc = none ∧
    List.filter ProviderCall.isIsrcSearch (appleLoop c2wAppleEnv c10wP.tracks 0).2 = [] ∧
    List.filter ProviderCall.isIsrcSearch (spotifyLoop c2wSpotifyEnv c10wP.tracks 0).2 = [] ∧
    List.filter ProviderCall.isIsrcSearch (ytLoop c2env c10wP.tracks 0).2 = [] :=
  ⟨c10_theorem.1 c10wEnv [c10wP] c10wP c10wT rfl (by simp) (by simp [c10wP]),
   (c10_theorem.2 c10wEnv [c10wP] c10wP rfl (by simp)).1 c2wAppleEnv 0,
   ((c10_theorem.2 c10wEnv [c10wP] c10wP rfl (by simp)).2).1 c2wSpotifyEnv 0,
   ((c10_theorem.2 c10wEnv [c10wP] c10wP rfl (by simp)).2).2 c2env 0⟩
